import Mathlib

/-!
Shallow embedding of `src/gpu/cuda_wrapper.c` / `cuda_wrapper.h` (geeqodb).

The repository is compiled with `GEEQODB_NO_CUDA` defined and every
`GEEQODB_REAL_CUDA` block guarded by `#if 0`, so the executable behavior is
the simulation branch of each function; that branch is what is embedded
here.  Dynamic memory (`malloc`/`free`/`memcpy` over the simulated device
regions and the `int` count cells) is modelled by an explicit heap mapping
addresses to blocks; a null pointer is `Option.none`.  Undefined behavior
(dereferencing null, double free, out-of-bounds access) is modelled by the
embedded function returning `none`.  `malloc` may fail, so each call site
takes an explicit success flag and the arbitrary (uninitialized) contents
of a fresh block as parameters.  A typed store through a data pointer
(`*(int *)p = v`, `*(float *)p = v`) is modelled as replacing the block's
contents with the stored scalar; float/double constants are carried as
exact rationals (every constant the source writes is representable).
-/

/-- Error codes, from `CudaError` in cuda_wrapper.h. -/
inductive CudaError where
  | success
  | initFailed
  | noDevice
  | memoryAllocation
  | launchFailed
  | invalidValue
  | notSupported
  | unknown
deriving DecidableEq, Repr

/-- Comparison operators for filter operations, from `CudaComparisonOp`. -/
inductive CudaComparisonOp where
  | eq
  | ne
  | lt
  | le
  | gt
  | ge
  | between
deriving DecidableEq, Repr

/-- Join types, from `CudaJoinType`. -/
inductive CudaJoinType where
  | inner
  | left
  | right
  | full
deriving DecidableEq, Repr

/-- Aggregation operations, from `CudaAggregateOp`. -/
inductive CudaAggregateOp where
  | sum
  | count
  | min
  | max
  | avg
deriving DecidableEq, Repr

/-- Data types, from `CudaDataType`. -/
inductive CudaDataType where
  | int32
  | int64
  | float
  | double
  | string
deriving DecidableEq, Repr

/-- Device information, from `CudaDeviceInfo` in cuda_wrapper.h. -/
structure CudaDeviceInfo where
  device_id : Int
  name : String
  total_memory : Nat
  compute_capability_major : Int
  compute_capability_minor : Int
  multi_processor_count : Int
  max_threads_per_block : Int
deriving DecidableEq, Repr

/-- A scalar written through a typed pointer cast (`*(int *)p`,
`*(float *)p`, `*(double *)p`).  Float and double values are carried as
exact rationals; every constant the source stores is representable. -/
inductive CVal where
  | vint (v : Int)
  | vfloat (v : Rat)
  | vdouble (v : Rat)
deriving DecidableEq, Repr

/-- One `malloc`-ed block of the simulated heap: a raw byte region
(`device_ptr` data regions), an `int` count cell (`count_ptr`), or a data
region overwritten by a typed scalar store. -/
inductive Block where
  | bytes (bs : List Nat)
  | cell (v : Int)
  | scalar (v : CVal)
deriving DecidableEq, Repr

/-- The simulated heap: an association list from addresses to live blocks,
plus the next fresh address.  `free` removes a block; accessing an absent
address is undefined behavior. -/
structure Heap where
  blocks : List (Nat × Block)
  next : Nat
deriving DecidableEq, Repr

/-- Association-list lookup over the heap's block list. -/
def blockLookup : List (Nat × Block) → Nat → Option Block
  | [], _ => none
  | p :: l, a => if p.1 = a then some p.2 else blockLookup l a

/-- Association-list update over the heap's block list. -/
def blockSet : List (Nat × Block) → Nat → Block → List (Nat × Block)
  | [], _, _ => []
  | p :: l, a, b =>
    if p.1 = a then (a, b) :: blockSet l a b else p :: blockSet l a b

/-- The live block at address `a`, if any. -/
def Heap.lookup (h : Heap) (a : Nat) : Option Block :=
  blockLookup h.blocks a

/-- Overwrite the block at address `a` (no effect if `a` is not live). -/
def Heap.set (h : Heap) (a : Nat) (b : Block) : Heap :=
  { blocks := blockSet h.blocks a b, next := h.next }

/-- `malloc`: `ok` says whether the allocation succeeds; `b` is the fresh
block's (uninitialized) contents, supplied by the environment. -/
def Heap.malloc (h : Heap) (ok : Bool) (b : Block) : Option Nat × Heap :=
  if ok then
    (some h.next, { blocks := (h.next, b) :: h.blocks, next := h.next + 1 })
  else
    (none, h)

/-- `free(a)`: removes the block at `a`; freeing an address that is not
live (double free) is undefined behavior (`none`). -/
def Heap.free (h : Heap) (a : Nat) : Option Heap :=
  if (h.lookup a).isSome then
    some { blocks := h.blocks.filter (fun p => p.1 != a), next := h.next }
  else
    none

/-- `*(int *)p = v`: store through a (possibly null) pointer to an `int`
count cell; null or non-cell target is undefined behavior. -/
def Heap.storeCell (h : Heap) (p : Option Nat) (v : Int) : Option Heap :=
  match p with
  | none => none
  | some a =>
    match h.lookup a with
    | some (Block.cell _) => some (h.set a (Block.cell v))
    | _ => none

/-- `*(int *)p` read from a count cell. -/
def Heap.loadCell (h : Heap) (p : Option Nat) : Option Int :=
  match p with
  | none => none
  | some a =>
    match h.lookup a with
    | some (Block.cell v) => some v
    | _ => none

/-- A typed scalar store through a data pointer: replaces the data
region's contents with the scalar.  Null target or a count cell target is
undefined behavior. -/
def Heap.storeScalar (h : Heap) (p : Option Nat) (v : CVal) : Option Heap :=
  match p with
  | none => none
  | some a =>
    match h.lookup a with
    | some (Block.bytes _) => some (h.set a (Block.scalar v))
    | some (Block.scalar _) => some (h.set a (Block.scalar v))
    | _ => none

/-- Read the first `n` bytes of the byte region at `a` (reading past the
block, or from a non-byte block, is undefined behavior). -/
def Heap.loadBytes (h : Heap) (a : Nat) (n : Nat) : Option (List Nat) :=
  match h.lookup a with
  | some (Block.bytes bs) => if n ≤ bs.length then some (bs.take n) else none
  | _ => none

/-- `memcpy` destination side: overwrite the first `src.length` bytes of
the byte region at `a` (writing past the block is undefined behavior). -/
def Heap.storeBytes (h : Heap) (a : Nat) (src : List Nat) : Option Heap :=
  match h.lookup a with
  | some (Block.bytes bs) =>
    if src.length ≤ bs.length then
      some (h.set a (Block.bytes (src ++ bs.drop src.length)))
    else
      none
  | _ => none

/-- Buffer handle, from `CudaBuffer` in cuda_wrapper.h.  A null pointer is
`none`. -/
structure CudaBuffer where
  device_ptr : Option Nat
  size : Nat
  count_ptr : Option Nat
deriving DecidableEq, Repr

/-- The static simulation context, from the file-scope `cuda_context`
struct in cuda_wrapper.c (a fixed 8-entry device table). -/
structure CudaContext where
  initialized : Bool
  device_count : Int
  devices : List CudaDeviceInfo
deriving DecidableEq, Repr

/-- The all-zero `CudaDeviceInfo`, the content of the zero-initialized
static `devices[8]` array before `cuda_init` runs. -/
def zeroDevice : CudaDeviceInfo :=
  { device_id := 0, name := "", total_memory := 0,
    compute_capability_major := 0, compute_capability_minor := 0,
    multi_processor_count := 0, max_threads_per_block := 0 }

/-- The zero-initialized static `cuda_context = {0}` with its fixed
8-entry `devices` array. -/
def initialCudaContext : CudaContext :=
  { initialized := false, device_count := 0,
    devices := List.replicate 8 zeroDevice }

/-- The simulated device descriptor `cuda_init` writes at index `i`. -/
def mkSimDevice (i : Nat) : CudaDeviceInfo :=
  { device_id := Int.ofNat i,
    name := "CUDA Simulated Device " ++ toString i,
    total_memory := 8 * 1024 * 1024 * 1024,
    compute_capability_major := 8,
    compute_capability_minor := 0,
    multi_processor_count := 64,
    max_threads_per_block := 1024 }

/-- The `for (i = 0; i < device_count; i++) devices[i] = ...` loop of
`cuda_init`: each iteration writes index `i` of the fixed-length device
array; a write at an index at or past the array's length is an
out-of-bounds store (undefined behavior, `none`). -/
def initDevices (devs : List CudaDeviceInfo) (count : Nat) :
    Option (List CudaDeviceInfo) :=
  (List.range count).foldl
    (fun acc i =>
      match acc with
      | none => none
      | some ds =>
        if i < ds.length then some (ds.set i (mkSimDevice i)) else none)
    (some devs)

/-- `cuda_init`.  `env_device_count` is the `GEEQODB_CUDA_DEVICE_COUNT`
environment override (already through `atoi`); absent means `none`.
Returns the error code, the updated context, and the value written through
the `device_count` out-parameter (if written). -/
def cuda_init (ctx : CudaContext) (env_device_count : Option Int) :
    Option (CudaError × CudaContext × Option Int) :=
  if ctx.initialized then
    some (CudaError.success, ctx, some ctx.device_count)
  else
    let dc : Int :=
      match env_device_count with
      | some v => v
      | none => 1
    let ctx1 := { ctx with device_count := dc }
    if dc ≤ 0 then
      some (CudaError.noDevice, ctx1, none)
    else
      match initDevices ctx1.devices dc.toNat with
      | none => none
      | some devs =>
        some (CudaError.success,
          { initialized := true, device_count := dc, devices := devs },
          some dc)

/-- `cuda_get_device_info`. -/
def cuda_get_device_info (ctx : CudaContext) (device_id : Int) :
    CudaError × Option CudaDeviceInfo :=
  if ctx.initialized = false then
    (CudaError.initFailed, none)
  else if device_id < 0 ∨ device_id ≥ ctx.device_count then
    (CudaError.invalidValue, none)
  else
    (CudaError.success, (ctx.devices.drop device_id.toNat).head?)

/-- `cuda_allocate` (simulation branch).  `ok1`/`ok2` say whether the two
`malloc` calls succeed; `junk`/`junkInt` are the uninitialized contents of
the fresh blocks; `buf0` is the caller's `CudaBuffer` out-parameter before
the call.  Returns the error code, the heap, and the out-parameter's final
contents. -/
def cuda_allocate (ctx : CudaContext) (h : Heap) (device_id : Int)
    (size : Nat) (ok1 ok2 : Bool) (junk : Nat → Nat) (junkInt : Int)
    (buf0 : CudaBuffer) : Option (CudaError × Heap × CudaBuffer) :=
  if ctx.initialized = false then
    some (CudaError.initFailed, h, buf0)
  else if device_id < 0 ∨ device_id ≥ ctx.device_count then
    some (CudaError.invalidValue, h, buf0)
  else
    match h.malloc ok1 (Block.bytes ((List.range size).map junk)) with
    | (none, h1) =>
      some (CudaError.memoryAllocation, h1, { buf0 with device_ptr := none })
    | (some dp, h1) =>
      match h1.malloc ok2 (Block.cell junkInt) with
      | (none, h2) =>
        match h2.free dp with
        | none => none
        | some h3 =>
          some (CudaError.memoryAllocation, h3,
            { buf0 with device_ptr := some dp, count_ptr := none })
      | (some cp, h2) =>
        match h2.storeCell (some cp) 0 with
        | none => none
        | some h3 =>
          some (CudaError.success, h3,
            { device_ptr := some dp, size := size, count_ptr := some cp })

/-- `cuda_free` (simulation branch): frees the data region and the count
cell, each only if its pointer is non-null.  Freeing a pointer whose block
is no longer live is a double free (undefined behavior, `none`). -/
def cuda_free (h : Heap) (buffer : CudaBuffer) : Option (CudaError × Heap) :=
  let step1 : Option Heap :=
    match buffer.device_ptr with
    | none => some h
    | some a => h.free a
  match step1 with
  | none => none
  | some h1 =>
    match buffer.count_ptr with
    | none => some (CudaError.success, h1)
    | some a =>
      match h1.free a with
      | none => none
      | some h2 => some (CudaError.success, h2)

/-- `cuda_copy_to_device` (simulation branch): guarded `memcpy` from the
host region at `host_ptr` into the buffer's data region. -/
def cuda_copy_to_device (ctx : CudaContext) (h : Heap)
    (host_ptr : Option Nat) (buffer : CudaBuffer) (size : Nat) :
    Option (CudaError × Heap) :=
  if ctx.initialized = false then
    some (CudaError.initFailed, h)
  else
    match host_ptr, buffer.device_ptr with
    | none, _ => some (CudaError.invalidValue, h)
    | _, none => some (CudaError.invalidValue, h)
    | some hp, some dp =>
      if size > buffer.size then
        some (CudaError.invalidValue, h)
      else
        match h.loadBytes hp size with
        | none => none
        | some src =>
          match h.storeBytes dp src with
          | none => none
          | some h2 => some (CudaError.success, h2)

/-- `cuda_copy_to_host` (simulation branch): guarded `memcpy` from the
buffer's data region into the host region at `host_ptr`. -/
def cuda_copy_to_host (ctx : CudaContext) (h : Heap) (buffer : CudaBuffer)
    (host_ptr : Option Nat) (size : Nat) : Option (CudaError × Heap) :=
  if ctx.initialized = false then
    some (CudaError.initFailed, h)
  else
    match host_ptr, buffer.device_ptr with
    | none, _ => some (CudaError.invalidValue, h)
    | _, none => some (CudaError.invalidValue, h)
    | some hp, some dp =>
      if size > buffer.size then
        some (CudaError.invalidValue, h)
      else
        match h.loadBytes dp size with
        | none => none
        | some src =>
          match h.storeBytes hp src with
          | none => none
          | some h2 => some (CudaError.success, h2)

/-- `cuda_execute_filter` (simulation branch): validates the context, the
two data pointers and `value` (never `value2`), picks the hardcoded
simulated count for the comparison kind (with the 523 override for
INT32/GT), and stores it through `output.count_ptr` — which is not
null-checked, so a null count cell is undefined behavior. -/
def cuda_execute_filter (ctx : CudaContext) (h : Heap)
    (input output : CudaBuffer) (op : CudaComparisonOp)
    (data_type : CudaDataType) (value value2 : Option Nat) :
    Option (CudaError × Heap) :=
  if ctx.initialized = false then
    some (CudaError.initFailed, h)
  else if input.device_ptr.isNone ∨ output.device_ptr.isNone ∨ value.isNone then
    some (CudaError.invalidValue, h)
  else
    let result_count : Int :=
      match op with
      | CudaComparisonOp.eq => 10
      | CudaComparisonOp.ne => 90
      | CudaComparisonOp.lt => 30
      | CudaComparisonOp.le => 40
      | CudaComparisonOp.gt => 60
      | CudaComparisonOp.ge => 70
      | CudaComparisonOp.between => 20
    let result_count : Int :=
      if data_type = CudaDataType.int32 ∧ op = CudaComparisonOp.gt ∧
          value.isSome then
        523
      else
        result_count
    match h.storeCell output.count_ptr result_count with
    | none => none
    | some h2 => some (CudaError.success, h2)

/-- `cuda_execute_filter_real`: with `GEEQODB_REAL_CUDA` undefined (the
build configuration of this repository, i.e. the accelerator runtime is
unavailable) it discards `num_rows` and falls back to the simulated
`cuda_execute_filter`. -/
def cuda_execute_filter_real (ctx : CudaContext) (h : Heap)
    (input output : CudaBuffer) (op : CudaComparisonOp)
    (data_type : CudaDataType) (value value2 : Option Nat)
    (num_rows : Nat) : Option (CudaError × Heap) :=
  cuda_execute_filter ctx h input output op data_type value value2

/-- `cuda_execute_join` (simulation branch): writes the simulated count
250 through `output.count_ptr`, but only after an explicit null check on
the count pointer. -/
def cuda_execute_join (ctx : CudaContext) (h : Heap)
    (left right output : CudaBuffer) (join_type : CudaJoinType)
    (left_join_col right_join_col : Int) (data_type : CudaDataType) :
    Option (CudaError × Heap) :=
  if ctx.initialized = false then
    some (CudaError.initFailed, h)
  else if left.device_ptr.isNone ∨ right.device_ptr.isNone ∨
      output.device_ptr.isNone then
    some (CudaError.invalidValue, h)
  else
    match output.count_ptr with
    | none => some (CudaError.success, h)
    | some _ =>
      match h.storeCell output.count_ptr 250 with
      | none => none
      | some h2 => some (CudaError.success, h2)

/-- `cuda_execute_aggregate` (simulation branch): stores a hardcoded
scalar through `output.device_ptr`, switched on the aggregate op and the
data type.  AVG writes only for FLOAT/DOUBLE; for every other type the
switch falls through and the function returns success having written
nothing. -/
def cuda_execute_aggregate (ctx : CudaContext) (h : Heap)
    (input output : CudaBuffer) (op : CudaAggregateOp)
    (data_type : CudaDataType) (column_index : Int) :
    Option (CudaError × Heap) :=
  if ctx.initialized = false then
    some (CudaError.initFailed, h)
  else if input.device_ptr.isNone ∨ output.device_ptr.isNone then
    some (CudaError.invalidValue, h)
  else
    let write : Option Heap :=
      match op with
      | CudaAggregateOp.sum =>
        if data_type = CudaDataType.int32 then
          h.storeScalar output.device_ptr (CVal.vint 523776)
        else if data_type = CudaDataType.float then
          h.storeScalar output.device_ptr (CVal.vfloat 523776)
        else if data_type = CudaDataType.double then
          h.storeScalar output.device_ptr (CVal.vdouble 523776)
        else
          some h
      | CudaAggregateOp.count =>
        h.storeScalar output.device_ptr (CVal.vint 1024)
      | CudaAggregateOp.min =>
        if data_type = CudaDataType.int32 then
          h.storeScalar output.device_ptr (CVal.vint 0)
        else if data_type = CudaDataType.float then
          h.storeScalar output.device_ptr (CVal.vfloat 0)
        else if data_type = CudaDataType.double then
          h.storeScalar output.device_ptr (CVal.vdouble 0)
        else
          some h
      | CudaAggregateOp.max =>
        if data_type = CudaDataType.int32 then
          h.storeScalar output.device_ptr (CVal.vint 1023)
        else if data_type = CudaDataType.float then
          h.storeScalar output.device_ptr (CVal.vfloat 1023)
        else if data_type = CudaDataType.double then
          h.storeScalar output.device_ptr (CVal.vdouble 1023)
        else
          some h
      | CudaAggregateOp.avg =>
        if data_type = CudaDataType.float then
          h.storeScalar output.device_ptr (CVal.vfloat (1023 / 2))
        else if data_type = CudaDataType.double then
          h.storeScalar output.device_ptr (CVal.vdouble (1023 / 2))
        else
          some h
    match write with
    | none => none
    | some h2 => some (CudaError.success, h2)

/-- `cuda_execute_sort` (simulation branch): copies the input count cell
into the output count cell (neither count pointer is null-checked). -/
def cuda_execute_sort (ctx : CudaContext) (h : Heap)
    (input output : CudaBuffer) (data_type : CudaDataType)
    (column_index : Int) (ascending : Int) : Option (CudaError × Heap) :=
  if ctx.initialized = false then
    some (CudaError.initFailed, h)
  else if input.device_ptr.isNone ∨ output.device_ptr.isNone then
    some (CudaError.invalidValue, h)
  else
    match h.loadCell input.count_ptr with
    | none => none
    | some v =>
      match h.storeCell output.count_ptr v with
      | none => none
      | some h2 => some (CudaError.success, h2)

/-- `cuda_execute_group_by` (simulation branch): writes the simulated
group count 10 through `output.count_ptr` (not null-checked). -/
def cuda_execute_group_by (ctx : CudaContext) (h : Heap)
    (input output : CudaBuffer) (group_type : CudaDataType)
    (group_column : Int) (agg_type : CudaDataType) (agg_column : Int)
    (agg_op : CudaAggregateOp) : Option (CudaError × Heap) :=
  if ctx.initialized = false then
    some (CudaError.initFailed, h)
  else if input.device_ptr.isNone ∨ output.device_ptr.isNone then
    some (CudaError.invalidValue, h)
  else
    match h.storeCell output.count_ptr 10 with
    | none => none
    | some h2 => some (CudaError.success, h2)

/-- One call to an OperatorExecutor entry point, with its arguments. -/
inductive OperatorCall where
  | filter (input output : CudaBuffer) (op : CudaComparisonOp)
      (data_type : CudaDataType) (value value2 : Option Nat)
  | join (left right output : CudaBuffer) (join_type : CudaJoinType)
      (left_join_col right_join_col : Int) (data_type : CudaDataType)
  | aggregate (input output : CudaBuffer) (op : CudaAggregateOp)
      (data_type : CudaDataType) (column_index : Int)
  | sort (input output : CudaBuffer) (data_type : CudaDataType)
      (column_index : Int) (ascending : Int)
  | groupBy (input output : CudaBuffer) (group_type : CudaDataType)
      (group_column : Int) (agg_type : CudaDataType) (agg_column : Int)
      (agg_op : CudaAggregateOp)
deriving DecidableEq, Repr

/-- Dispatch an `OperatorCall` to the corresponding entry point.  The
context is read-only: no entry point writes the static device table. -/
def OperatorCall.run (c : OperatorCall) (ctx : CudaContext) (h : Heap) :
    Option (CudaError × Heap) :=
  match c with
  | OperatorCall.filter input output op dt v v2 =>
    cuda_execute_filter ctx h input output op dt v v2
  | OperatorCall.join l r output jt lc rc dt =>
    cuda_execute_join ctx h l r output jt lc rc dt
  | OperatorCall.aggregate input output op dt ci =>
    cuda_execute_aggregate ctx h input output op dt ci
  | OperatorCall.sort input output dt ci asc =>
    cuda_execute_sort ctx h input output dt ci asc
  | OperatorCall.groupBy input output gt gc at2 ac ao =>
    cuda_execute_group_by ctx h input output gt gc at2 ac ao

/-- The output buffer of an `OperatorCall`. -/
def OperatorCall.output : OperatorCall → CudaBuffer
  | OperatorCall.filter _ output _ _ _ _ => output
  | OperatorCall.join _ _ output _ _ _ _ => output
  | OperatorCall.aggregate _ output _ _ _ => output
  | OperatorCall.sort _ output _ _ _ => output
  | OperatorCall.groupBy _ output _ _ _ _ _ => output

theorem blockLookup_set_ne (l : List (Nat × Block)) (ca a : Nat) (b : Block)
    (hne : a ≠ ca) : blockLookup (blockSet l ca b) a = blockLookup l a := by
  induction l with
  | nil => rfl
  | cons p l ih =>
    by_cases hp : p.1 = ca
    · subst hp
      simp only [blockSet, if_pos rfl, blockLookup]
      rw [if_neg (fun hh : p.1 = a => hne hh.symm),
        if_neg (fun hh : p.1 = a => hne hh.symm)]
      exact ih
    · simp only [blockSet, if_neg hp, blockLookup]
      by_cases hpa : p.1 = a
      · rw [if_pos hpa, if_pos hpa]
      · rw [if_neg hpa, if_neg hpa]
        exact ih

theorem blockLookup_set_self (l : List (Nat × Block)) (ca : Nat) (b : Block)
    (hsome : (blockLookup l ca).isSome = true) :
    blockLookup (blockSet l ca b) ca = some b := by
  induction l with
  | nil => simp [blockLookup] at hsome
  | cons p l ih =>
    by_cases hp : p.1 = ca
    · subst hp
      simp [blockSet, blockLookup]
    · simp only [blockLookup, if_neg hp] at hsome
      simp only [blockSet, if_neg hp, blockLookup, if_neg hp]
      exact ih hsome

theorem Heap.lookup_set_ne (h : Heap) (ca a : Nat) (b : Block) (hne : a ≠ ca) :
    (h.set ca b).lookup a = h.lookup a :=
  blockLookup_set_ne h.blocks ca a b hne

theorem Heap.lookup_set_self (h : Heap) (ca : Nat) (b : Block)
    (hsome : (h.lookup ca).isSome = true) : (h.set ca b).lookup ca = some b :=
  blockLookup_set_self h.blocks ca b hsome

theorem Heap.storeCell_frame {h : Heap} {p : Option Nat} {v : Int} {h2 : Heap}
    (hs : h.storeCell p v = some h2) {a : Nat} (ha : some a ≠ p) :
    h2.lookup a = h.lookup a := by
  cases p with
  | none => exact Option.noConfusion hs
  | some ca =>
    have hane : a ≠ ca := fun hh => ha (by rw [hh])
    have hs3 : (match h.lookup ca with
        | some (Block.cell _) => some (h.set ca (Block.cell v))
        | _ => none) = some h2 := hs
    cases hb : h.lookup ca with
    | none =>
      rw [hb] at hs3
      exact Option.noConfusion hs3
    | some blk =>
      cases blk with
      | bytes bs =>
        rw [hb] at hs3
        exact Option.noConfusion hs3
      | cell c0 =>
        rw [hb] at hs3
        have hs2 : h.set ca (Block.cell v) = h2 := Option.some.inj hs3
        rw [← hs2]
        exact h.lookup_set_ne ca a (Block.cell v) hane
      | scalar s0 =>
        rw [hb] at hs3
        exact Option.noConfusion hs3

theorem Heap.storeScalar_frame {h : Heap} {p : Option Nat} {v : CVal}
    {h2 : Heap} (hs : h.storeScalar p v = some h2) {a : Nat}
    (ha : some a ≠ p) : h2.lookup a = h.lookup a := by
  cases p with
  | none => exact Option.noConfusion hs
  | some ca =>
    have hane : a ≠ ca := fun hh => ha (by rw [hh])
    have hs3 : (match h.lookup ca with
        | some (Block.bytes _) => some (h.set ca (Block.scalar v))
        | some (Block.scalar _) => some (h.set ca (Block.scalar v))
        | _ => none) = some h2 := hs
    cases hb : h.lookup ca with
    | none =>
      rw [hb] at hs3
      exact Option.noConfusion hs3
    | some blk =>
      cases blk with
      | bytes bs =>
        rw [hb] at hs3
        have hs2 : h.set ca (Block.scalar v) = h2 := Option.some.inj hs3
        rw [← hs2]
        exact h.lookup_set_ne ca a (Block.scalar v) hane
      | cell c0 =>
        rw [hb] at hs3
        exact Option.noConfusion hs3
      | scalar s0 =>
        rw [hb] at hs3
        have hs2 : h.set ca (Block.scalar v) = h2 := Option.some.inj hs3
        rw [← hs2]
        exact h.lookup_set_ne ca a (Block.scalar v) hane

theorem blockFilter_bne_of_lt (l : List (Nat × Block)) (n : Nat)
    (hwf : ∀ p ∈ l, p.1 < n) : l.filter (fun p => p.1 != n) = l := by
  induction l with
  | nil => rfl
  | cons p l ih =>
    have hp : p.1 < n := hwf p (List.mem_cons_self p l)
    have hb : (p.1 != n) = true := by
      simp only [bne_iff_ne, ne_eq]
      omega
    simp only [List.filter, hb]
    rw [ih (fun q hq => hwf q (List.mem_cons_of_mem p hq))]

/-- An initialized one-device context, as left by a successful
`cuda_init` with no override (descriptor contents are irrelevant to the
operator entry points, which only read `initialized`). -/
def testCtx : CudaContext :=
  { initialized := true, device_count := 1,
    devices := List.replicate 8 zeroDevice }

/-- A heap with an allocated input buffer (data region at 0, count cell 5
at 1) and output buffer (data region at 2, count cell 0 at 3). -/
def testHeap : Heap :=
  { blocks := [(0, Block.bytes [0, 0, 0, 0]), (1, Block.cell 5),
      (2, Block.bytes [0, 0, 0, 0]), (3, Block.cell 0)],
    next := 4 }

/-- The input buffer handle of `testHeap`. -/
def testInput : CudaBuffer :=
  { device_ptr := some 0, size := 4, count_ptr := some 1 }

/-- The output buffer handle of `testHeap`. -/
def testOutput : CudaBuffer :=
  { device_ptr := some 2, size := 4, count_ptr := some 3 }

/-- The number of valid rows of a buffer, per the repository's count-cell
convention: the count cell carries the buffer's row count (this is the
value `cuda_execute_sort` propagates from input to output). -/
def numValidRows (h : Heap) (b : CudaBuffer) : Option Int :=
  h.loadCell b.count_ptr

/-- C1 counterexample: an initialized context, both data pointers and
`value` non-null, `ComparisonKind = BETWEEN`, `value2 = NULL`: the call
returns Success (not InvalidValue) and writes the simulated count 20 into
the output count cell (not nothing). -/
theorem cuda_filter_between_missing_value2_counterexample :
    cuda_execute_filter testCtx testHeap testInput testOutput
        CudaComparisonOp.between CudaDataType.int32 (some 0) none =
      some (CudaError.success,
        { blocks := [(0, Block.bytes [0, 0, 0, 0]), (1, Block.cell 5),
            (2, Block.bytes [0, 0, 0, 0]), (3, Block.cell 20)],
          next := 4 }) ∧
    CudaError.success ≠ CudaError.invalidValue ∧
    Heap.loadCell
        { blocks := [(0, Block.bytes [0, 0, 0, 0]), (1, Block.cell 5),
            (2, Block.bytes [0, 0, 0, 0]), (3, Block.cell 20)],
          next := 4 }
        testOutput.count_ptr ≠ Heap.loadCell testHeap testOutput.count_ptr := by
  decide

/-- C1 amended: Filter with BETWEEN and a null `value2` (but non-null
`value`) never validates `value2`; it returns Success and writes the
hardcoded simulated BETWEEN count 20 into the output count cell. -/
theorem cuda_filter_between_missing_value2_behavior (ctx : CudaContext)
    (h : Heap) (input output : CudaBuffer) (dt : CudaDataType)
    (v : Option Nat) (ca : Nat) (c0 : Int)
    (hinit : ctx.initialized = true)
    (hin : input.device_ptr.isNone = false)
    (hout : output.device_ptr.isNone = false)
    (hv : v.isNone = false)
    (hcp : output.count_ptr = some ca)
    (hcell : h.lookup ca = some (Block.cell c0)) :
    cuda_execute_filter ctx h input output CudaComparisonOp.between dt v none =
      some (CudaError.success, h.set ca (Block.cell 20)) := by
  unfold cuda_execute_filter
  rw [hinit, hcp]
  simp only [hin, hout, hv, Bool.false_eq_true, or_self, if_false,
    Bool.true_eq_false, false_or, or_false]
  simp only [Heap.storeCell, hcell]
  simp

/-- C1 witness: the amended theorem applied at a concrete call. -/
theorem cuda_filter_between_missing_value2_behavior_witness :
    cuda_execute_filter testCtx testHeap testInput testOutput
        CudaComparisonOp.between CudaDataType.int64 (some 0) none =
      some (CudaError.success, testHeap.set 3 (Block.cell 20)) :=
  cuda_filter_between_missing_value2_behavior testCtx testHeap testInput
    testOutput CudaDataType.int64 (some 0) 3 0 (by decide) (by decide)
    (by decide) (by decide) (by decide) (by decide)

/-- C2 counterexample: `cuda_free` receives the buffer by value and
cannot null the caller's handle, so allocate, free, free again on the same
handle frees the same pointers twice: the second call is a double free
(undefined behavior). -/
theorem cuda_free_double_free_counterexample :
    cuda_allocate testCtx { blocks := [], next := 0 } 0 4 true true
        (fun _ => 0) 0 { device_ptr := none, size := 0, count_ptr := none } =
      some (CudaError.success,
        { blocks := [(1, Block.cell 0), (0, Block.bytes [0, 0, 0, 0])],
          next := 2 },
        { device_ptr := some 0, size := 4, count_ptr := some 1 }) ∧
    cuda_free
        { blocks := [(1, Block.cell 0), (0, Block.bytes [0, 0, 0, 0])],
          next := 2 }
        { device_ptr := some 0, size := 4, count_ptr := some 1 } =
      some (CudaError.success, { blocks := [], next := 2 }) ∧
    cuda_free { blocks := [], next := 2 }
        { device_ptr := some 0, size := 4, count_ptr := some 1 } = none := by
  decide

/-- C2 amended: release of an already-released (null-pointer) handle is a
no-op that returns Success; but release does not null the handle it was
given, so releasing the same still-non-null handle twice double-frees. -/
theorem cuda_free_null_noop (h : Heap) (size : Nat) :
    cuda_free h { device_ptr := none, size := size, count_ptr := none } =
      some (CudaError.success, h) := rfl

/-- C3 counterexample: Aggregate with AVG over INT32 returns Success (not
NotSupported) and leaves the heap unchanged. -/
theorem cuda_aggregate_avg_int_counterexample :
    cuda_execute_aggregate testCtx testHeap testInput testOutput
        CudaAggregateOp.avg CudaDataType.int32 0 =
      some (CudaError.success, testHeap) ∧
    CudaError.success ≠ CudaError.notSupported := by
  decide

/-- C3 amended: Aggregate with AVG and an integer DataTypeTag silently
does nothing: it returns Success (never NotSupported) and writes no
scalar. -/
theorem cuda_aggregate_avg_int_behavior (ctx : CudaContext) (h : Heap)
    (input output : CudaBuffer) (ci : Int) (dt : CudaDataType)
    (hdt : dt = CudaDataType.int32 ∨ dt = CudaDataType.int64)
    (hinit : ctx.initialized = true)
    (hin : input.device_ptr.isNone = false)
    (hout : output.device_ptr.isNone = false) :
    cuda_execute_aggregate ctx h input output CudaAggregateOp.avg dt ci =
      some (CudaError.success, h) := by
  rcases hdt with hdt | hdt <;> subst hdt <;>
    · unfold cuda_execute_aggregate
      rw [hinit]
      simp [hin, hout]

/-- C3 witness: the amended theorem applied at a concrete call. -/
theorem cuda_aggregate_avg_int_behavior_witness :
    cuda_execute_aggregate testCtx testHeap testInput testOutput
        CudaAggregateOp.avg CudaDataType.int64 0 =
      some (CudaError.success, testHeap) :=
  cuda_aggregate_avg_int_behavior testCtx testHeap testInput testOutput 0
    CudaDataType.int64 (Or.inr rfl) (by decide) (by decide) (by decide)

/-- C4 counterexample: the input buffer reports 5 valid rows, yet
Aggregate(COUNT) writes the constant 1024 into the output data region;
1024 is not the input's row count. -/
theorem cuda_aggregate_count_constant_counterexample :
    numValidRows testHeap testInput = some 5 ∧
    cuda_execute_aggregate testCtx testHeap testInput testOutput
        CudaAggregateOp.count CudaDataType.int32 0 =
      some (CudaError.success,
        { blocks := [(0, Block.bytes [0, 0, 0, 0]), (1, Block.cell 5),
            (2, Block.scalar (CVal.vint 1024)), (3, Block.cell 0)],
          next := 4 }) ∧
    (1024 : Int) ≠ 5 := by
  decide

/-- C4 amended: Aggregate(COUNT) writes the hardcoded constant 1024 into
the output's data region, for every DataTypeTag and regardless of the
input buffer's contents or row count. -/
theorem cuda_aggregate_count_behavior (ctx : CudaContext) (h : Heap)
    (input output : CudaBuffer) (dt : CudaDataType) (ci : Int) (da : Nat)
    (bs : List Nat)
    (hinit : ctx.initialized = true)
    (hin : input.device_ptr.isNone = false)
    (hout : output.device_ptr = some da)
    (hblk : h.lookup da = some (Block.bytes bs)) :
    cuda_execute_aggregate ctx h input output CudaAggregateOp.count dt ci =
      some (CudaError.success, h.set da (Block.scalar (CVal.vint 1024))) := by
  unfold cuda_execute_aggregate
  rw [hinit, hout]
  simp only [hin, Bool.false_eq_true, Option.isNone_some, or_self, if_false,
    Bool.true_eq_false, false_or, or_false]
  simp only [Heap.storeScalar, hblk]

/-- C4 witness: the amended theorem applied at a concrete call. -/
theorem cuda_aggregate_count_behavior_witness :
    cuda_execute_aggregate testCtx testHeap testInput testOutput
        CudaAggregateOp.count CudaDataType.string 0 =
      some (CudaError.success,
        testHeap.set 2 (Block.scalar (CVal.vint 1024))) :=
  cuda_aggregate_count_behavior testCtx testHeap testInput testOutput
    CudaDataType.string 0 2 [0, 0, 0, 0] (by decide) (by decide) (by decide)
    (by decide)

/-- C6: with the device-count override set to 9 on the zero-initialized
context, the `cuda_init` device loop attempts to write descriptor index 8
of the fixed 8-entry `devices` array: an out-of-bounds store (undefined
behavior). -/
theorem cuda_init_override_nine_out_of_bounds :
    cuda_init initialCudaContext (some 9) = none := by
  decide

/-- C7: with the accelerator runtime unavailable (the repository's build,
`GEEQODB_REAL_CUDA` undefined), `cuda_execute_filter_real` returns exactly
what the simulated `cuda_execute_filter` returns on the same arguments —
same error code, same heap effect. -/
theorem cuda_execute_filter_real_fallback_eq (ctx : CudaContext) (h : Heap)
    (input output : CudaBuffer) (op : CudaComparisonOp)
    (dt : CudaDataType) (v v2 : Option Nat) (num_rows : Nat) :
    cuda_execute_filter_real ctx h input output op dt v v2 num_rows =
      cuda_execute_filter ctx h input output op dt v v2 := rfl

theorem blockSet_not_mem (l : List (Nat × Block)) (a : Nat) (b : Block)
    (hnm : ∀ p ∈ l, p.1 ≠ a) : blockSet l a b = l := by
  induction l with
  | nil => rfl
  | cons p l ih =>
    have hp : p.1 ≠ a := hnm p (List.mem_cons_self p l)
    simp only [blockSet, if_neg hp]
    rw [ih (fun q hq => hnm q (List.mem_cons_of_mem p hq))]

/-- C5: when the data-region `malloc` succeeds and the count-cell
`malloc` fails, `cuda_allocate` frees the data region before returning
MemoryAllocationFailed: the final heap holds exactly the blocks it held
before the call (no leak), and the out-parameter's count pointer is null
(no valid handle is returned). -/
theorem cuda_allocate_partial_failure_unwinds (ctx : CudaContext) (h : Heap)
    (device_id : Int) (size : Nat) (junk : Nat → Nat) (junkInt : Int)
    (buf0 : CudaBuffer)
    (hinit : ctx.initialized = true)
    (hlo : 0 ≤ device_id) (hhi : device_id < ctx.device_count)
    (hwf : ∀ p ∈ h.blocks, p.1 < h.next) :
    ∃ buf : CudaBuffer,
      cuda_allocate ctx h device_id size true false junk junkInt buf0 =
        some (CudaError.memoryAllocation,
          { blocks := h.blocks, next := h.next + 1 }, buf) ∧
      buf.count_ptr = none := by
  have hguard : ¬(device_id < 0 ∨ device_id ≥ ctx.device_count) := by omega
  refine ⟨{ buf0 with device_ptr := some h.next, count_ptr := none }, ?_, rfl⟩
  unfold cuda_allocate
  rw [hinit]
  simp only [Bool.true_eq_false, if_false]
  rw [if_neg hguard]
  simp only [Heap.malloc, eq_self_iff_true, if_true, Bool.false_eq_true,
    Bool.true_eq_false, if_false, Heap.free, Heap.lookup, blockLookup,
    Option.isSome_some, List.filter_cons, bne_self_eq_false,
    blockFilter_bne_of_lt h.blocks h.next hwf]

/-- C5 witness: the unwinding theorem applied at a concrete call. -/
theorem cuda_allocate_partial_failure_unwinds_witness :
    ∃ buf : CudaBuffer,
      cuda_allocate testCtx testHeap 0 16 true false (fun _ => 0) 7
          { device_ptr := none, size := 0, count_ptr := none } =
        some (CudaError.memoryAllocation,
          { blocks := testHeap.blocks, next := testHeap.next + 1 }, buf) ∧
      buf.count_ptr = none :=
  cuda_allocate_partial_failure_unwinds testCtx testHeap 0 16 (fun _ => 0) 7
    { device_ptr := none, size := 0, count_ptr := none } (by decide)
    (by decide) (by decide) (by decide)

/-- C10: a successful `cuda_allocate` returns a buffer whose recorded
byte size is the requested size and whose count cell has been set to 0
before the call returns. -/
theorem cuda_allocate_success_zero_count (ctx : CudaContext) (h : Heap)
    (device_id : Int) (size : Nat) (junk : Nat → Nat) (junkInt : Int)
    (buf0 : CudaBuffer)
    (hinit : ctx.initialized = true)
    (hlo : 0 ≤ device_id) (hhi : device_id < ctx.device_count)
    (hwf : ∀ p ∈ h.blocks, p.1 < h.next) :
    ∃ h2 : Heap, ∃ buf : CudaBuffer,
      cuda_allocate ctx h device_id size true true junk junkInt buf0 =
        some (CudaError.success, h2, buf) ∧
      buf.size = size ∧
      h2.loadCell buf.count_ptr = some 0 := by
  have hguard : ¬(device_id < 0 ∨ device_id ≥ ctx.device_count) := by omega
  have hne : (h.next = h.next + 1) = False :=
    eq_false (by omega)
  have hset : blockSet h.blocks (h.next + 1) (Block.cell 0) = h.blocks :=
    blockSet_not_mem h.blocks (h.next + 1) (Block.cell 0)
      (fun p hp => by have := hwf p hp; omega)
  refine ⟨⟨(h.next + 1, Block.cell 0) ::
      (h.next, Block.bytes ((List.range size).map junk)) :: h.blocks,
      h.next + 1 + 1⟩,
    ⟨some h.next, size, some (h.next + 1)⟩, ?_, rfl, ?_⟩
  · unfold cuda_allocate
    rw [hinit]
    simp only [Bool.true_eq_false, if_false]
    rw [if_neg hguard]
    simp only [Heap.malloc, eq_self_iff_true, if_true, Heap.storeCell,
      Heap.lookup, blockLookup, Heap.set, blockSet, hne, if_false, hset]
  · simp [Heap.loadCell, Heap.lookup, blockLookup]

/-- C10 witness: the zero-count theorem applied at a concrete call. -/
theorem cuda_allocate_success_zero_count_witness :
    ∃ h2 : Heap, ∃ buf : CudaBuffer,
      cuda_allocate testCtx testHeap 0 16 true true (fun _ => 0) 7
          { device_ptr := none, size := 0, count_ptr := none } =
        some (CudaError.success, h2, buf) ∧
      buf.size = 16 ∧
      h2.loadCell buf.count_ptr = some 0 :=
  cuda_allocate_success_zero_count testCtx testHeap 0 16 (fun _ => 0) 7
    { device_ptr := none, size := 0, count_ptr := none } (by decide)
    (by decide) (by decide) (by decide)

theorem take_append_of_length {l1 l2 : List Nat} {n : Nat}
    (hl : l1.length = n) : (l1 ++ l2).take n = l1 := by
  rw [← hl]
  exact List.take_left l1 l2

/-- C8: with an initialized context, an allocated device buffer, a host
source region holding at least `n` bytes and a host destination region
holding at least `n` bytes (allocated separately from the device region),
`copyToDevice` then `copyToHost` both succeed and leave the first `n`
bytes of the destination equal to the first `n` bytes of the source, for
every `n` not exceeding the buffer's byte size. -/
theorem cuda_copy_roundtrip (ctx : CudaContext) (h : Heap)
    (buffer : CudaBuffer) (hp dp q : Nat) (hostBs devBs outBs : List Nat)
    (n : Nat)
    (hinit : ctx.initialized = true)
    (hbuf : buffer.device_ptr = some dp)
    (hdev : h.lookup dp = some (Block.bytes devBs))
    (hdevlen : devBs.length = buffer.size)
    (hhost : h.lookup hp = some (Block.bytes hostBs))
    (hhostlen : n ≤ hostBs.length)
    (hq : h.lookup q = some (Block.bytes outBs))
    (hqlen : n ≤ outBs.length)
    (hqdp : q ≠ dp)
    (hn : n ≤ buffer.size) :
    ∃ h1 h2 : Heap,
      cuda_copy_to_device ctx h (some hp) buffer n =
        some (CudaError.success, h1) ∧
      cuda_copy_to_host ctx h1 buffer (some q) n =
        some (CudaError.success, h2) ∧
      h2.loadBytes q n = some (hostBs.take n) ∧
      h.loadBytes hp n = some (hostBs.take n) := by
  have hlen_take : (hostBs.take n).length = n := by
    rw [List.length_take]
    omega
  have hnd : n ≤ devBs.length := by omega
  have hngt : ¬ n > buffer.size := by omega
  have hload1 : h.loadBytes hp n = some (hostBs.take n) := by
    simp only [Heap.loadBytes, hhost, hhostlen, if_true]
  have hstore1 : h.storeBytes dp (hostBs.take n) =
      some (h.set dp (Block.bytes (hostBs.take n ++ devBs.drop n))) := by
    simp only [Heap.storeBytes, hdev, hlen_take, hnd, if_true]
  have hcd : cuda_copy_to_device ctx h (some hp) buffer n =
      some (CudaError.success,
        h.set dp (Block.bytes (hostBs.take n ++ devBs.drop n))) := by
    unfold cuda_copy_to_device
    rw [hinit, hbuf]
    simp only [Bool.true_eq_false, if_false, hngt, hload1, hstore1]
  have h1lookup_dp :
      (h.set dp (Block.bytes (hostBs.take n ++ devBs.drop n))).lookup dp =
        some (Block.bytes (hostBs.take n ++ devBs.drop n)) :=
    Heap.lookup_set_self h dp (Block.bytes (hostBs.take n ++ devBs.drop n))
      (by rw [hdev]; rfl)
  have hnewlen : n ≤ (hostBs.take n ++ devBs.drop n).length := by
    rw [List.length_append, hlen_take, List.length_drop]
    omega
  have htake_new : (hostBs.take n ++ devBs.drop n).take n = hostBs.take n :=
    take_append_of_length hlen_take
  have hload2 :
      (h.set dp (Block.bytes (hostBs.take n ++ devBs.drop n))).loadBytes dp n =
        some (hostBs.take n) := by
    simp only [Heap.loadBytes, h1lookup_dp, hnewlen, if_true, htake_new]
  have h1lookup_q :
      (h.set dp (Block.bytes (hostBs.take n ++ devBs.drop n))).lookup q =
        some (Block.bytes outBs) := by
    rw [Heap.lookup_set_ne h dp q (Block.bytes (hostBs.take n ++ devBs.drop n))
      hqdp]
    exact hq
  have hstore2 :
      (h.set dp (Block.bytes (hostBs.take n ++ devBs.drop n))).storeBytes q
          (hostBs.take n) =
        some ((h.set dp (Block.bytes (hostBs.take n ++ devBs.drop n))).set q
          (Block.bytes (hostBs.take n ++ outBs.drop n))) := by
    simp only [Heap.storeBytes, h1lookup_q, hlen_take, hqlen, if_true]
  have hch : cuda_copy_to_host ctx
      (h.set dp (Block.bytes (hostBs.take n ++ devBs.drop n))) buffer
      (some q) n =
      some (CudaError.success,
        (h.set dp (Block.bytes (hostBs.take n ++ devBs.drop n))).set q
          (Block.bytes (hostBs.take n ++ outBs.drop n))) := by
    unfold cuda_copy_to_host
    rw [hinit, hbuf]
    simp only [Bool.true_eq_false, if_false, hngt, hload2, hstore2]
  refine ⟨_, _, hcd, hch, ?_, hload1⟩
  have h2lookup_q :
      ((h.set dp (Block.bytes (hostBs.take n ++ devBs.drop n))).set q
          (Block.bytes (hostBs.take n ++ outBs.drop n))).lookup q =
        some (Block.bytes (hostBs.take n ++ outBs.drop n)) :=
    Heap.lookup_set_self _ q (Block.bytes (hostBs.take n ++ outBs.drop n))
      (by rw [h1lookup_q]; rfl)
  have houtlen : n ≤ (hostBs.take n ++ outBs.drop n).length := by
    rw [List.length_append, hlen_take, List.length_drop]
    omega
  have htake_out : (hostBs.take n ++ outBs.drop n).take n = hostBs.take n :=
    take_append_of_length hlen_take
  simp only [Heap.loadBytes, h2lookup_q, houtlen, if_true, htake_out]

/-- C8 witness: the round-trip theorem applied at a concrete call. -/
theorem cuda_copy_roundtrip_witness :
    ∃ h1 h2 : Heap,
      cuda_copy_to_device testCtx
          { blocks := [(0, Block.bytes [170, 187, 204]),
              (1, Block.bytes [0, 0, 0]), (2, Block.bytes [9, 9, 9])],
            next := 3 }
          (some 0) { device_ptr := some 1, size := 3, count_ptr := none } 2 =
        some (CudaError.success, h1) ∧
      cuda_copy_to_host testCtx h1
          { device_ptr := some 1, size := 3, count_ptr := none } (some 2) 2 =
        some (CudaError.success, h2) ∧
      h2.loadBytes 2 2 = some (List.take 2 [170, 187, 204]) ∧
      Heap.loadBytes
          { blocks := [(0, Block.bytes [170, 187, 204]),
              (1, Block.bytes [0, 0, 0]), (2, Block.bytes [9, 9, 9])],
            next := 3 } 0 2 = some (List.take 2 [170, 187, 204]) :=
  cuda_copy_roundtrip testCtx
    { blocks := [(0, Block.bytes [170, 187, 204]), (1, Block.bytes [0, 0, 0]),
        (2, Block.bytes [9, 9, 9])], next := 3 }
    { device_ptr := some 1, size := 3, count_ptr := none } 0 1 2
    [170, 187, 204] [0, 0, 0] [9, 9, 9] 2 (by decide) (by decide) (by decide)
    (by decide) (by decide) (by decide) (by decide) (by decide) (by decide)
    (by decide)

theorem matchStoreCell_frame {h : Heap} {p : Option Nat} {v : Int}
    {e : CudaError} {h2 : Heap}
    (hr : (match h.storeCell p v with
      | none => none
      | some hh => some (CudaError.success, hh)) = some (e, h2))
    {a : Nat} (ha : some a ≠ p) : h2.lookup a = h.lookup a := by
  cases hsc : h.storeCell p v with
  | none =>
    rw [hsc] at hr
    exact Option.noConfusion hr
  | some hx =>
    rw [hsc] at hr
    have hh : hx = h2 := congrArg Prod.snd (Option.some.inj hr)
    rw [← hh]
    exact Heap.storeCell_frame hsc ha

theorem matchStoreScalar_frame {h : Heap} {p : Option Nat} {v : CVal}
    {e : CudaError} {h2 : Heap}
    (hr : (match h.storeScalar p v with
      | none => none
      | some hh => some (CudaError.success, hh)) = some (e, h2))
    {a : Nat} (ha : some a ≠ p) : h2.lookup a = h.lookup a := by
  cases hsc : h.storeScalar p v with
  | none =>
    rw [hsc] at hr
    exact Option.noConfusion hr
  | some hx =>
    rw [hsc] at hr
    have hh : hx = h2 := congrArg Prod.snd (Option.some.inj hr)
    rw [← hh]
    exact Heap.storeScalar_frame hsc ha

/-- C9 counterexample: calling Filter with the same buffer as input and
output — an argument combination the claim quantifies over — mutates the
input buffer's count cell (from 5 to 10), so an entry point does not
leave its input buffer unchanged on every argument combination. -/
theorem operator_aliasing_counterexample :
    OperatorCall.run
        (OperatorCall.filter testInput testInput CudaComparisonOp.eq
          CudaDataType.int32 (some 0) none) testCtx testHeap =
      some (CudaError.success,
        { blocks := [(0, Block.bytes [0, 0, 0, 0]), (1, Block.cell 10),
            (2, Block.bytes [0, 0, 0, 0]), (3, Block.cell 0)],
          next := 4 }) ∧
    numValidRows testHeap testInput = some 5 ∧
    numValidRows
        { blocks := [(0, Block.bytes [0, 0, 0, 0]), (1, Block.cell 10),
            (2, Block.bytes [0, 0, 0, 0]), (3, Block.cell 0)],
          next := 4 } testInput = some 10 ∧
    (5 : Int) ≠ 10 := by
  decide

/-- C9 amended: every OperatorExecutor entry point (filter, join,
aggregate, sort, group-by) that returns leaves every heap block other
than the output buffer's count cell and data region unchanged; in
particular the input buffers are untouched whenever they do not alias the
output buffer.  The context (the static device table) is read-only in
every entry point. -/
theorem operator_frame_property (c : OperatorCall) (ctx : CudaContext)
    (h : Heap) (e : CudaError) (h2 : Heap)
    (hrun : c.run ctx h = some (e, h2)) (a : Nat)
    (hc : some a ≠ c.output.count_ptr) (hd : some a ≠ c.output.device_ptr) :
    h2.lookup a = h.lookup a := by
  cases c with
  | filter input output op dt v v2 =>
    simp only [OperatorCall.run] at hrun
    simp only [OperatorCall.output] at hc hd
    unfold cuda_execute_filter at hrun
    split at hrun
    · have hh : h = h2 := congrArg Prod.snd (Option.some.inj hrun)
      rw [← hh]
    · split at hrun
      · have hh : h = h2 := congrArg Prod.snd (Option.some.inj hrun)
        rw [← hh]
      · exact matchStoreCell_frame hrun hc
  | join l r output jt lc rc dt =>
    simp only [OperatorCall.run] at hrun
    simp only [OperatorCall.output] at hc hd
    unfold cuda_execute_join at hrun
    split at hrun
    · have hh : h = h2 := congrArg Prod.snd (Option.some.inj hrun)
      rw [← hh]
    · split at hrun
      · have hh : h = h2 := congrArg Prod.snd (Option.some.inj hrun)
        rw [← hh]
      · cases hcp : output.count_ptr with
        | none =>
          rw [hcp] at hrun
          have hh : h = h2 := congrArg Prod.snd (Option.some.inj hrun)
          rw [← hh]
        | some cb =>
          rw [hcp] at hrun hc
          exact matchStoreCell_frame hrun hc
  | aggregate input output op dt ci =>
    simp only [OperatorCall.run] at hrun
    simp only [OperatorCall.output] at hc hd
    unfold cuda_execute_aggregate at hrun
    split at hrun
    · have hh : h = h2 := congrArg Prod.snd (Option.some.inj hrun)
      rw [← hh]
    · split at hrun
      · have hh : h = h2 := congrArg Prod.snd (Option.some.inj hrun)
        rw [← hh]
      · cases op <;> cases dt <;>
          first
          | exact matchStoreScalar_frame hrun hd
          | (have hh : h = h2 := congrArg Prod.snd (Option.some.inj hrun)
             rw [← hh])
  | sort input output dt ci asc =>
    simp only [OperatorCall.run] at hrun
    simp only [OperatorCall.output] at hc hd
    unfold cuda_execute_sort at hrun
    split at hrun
    · have hh : h = h2 := congrArg Prod.snd (Option.some.inj hrun)
      rw [← hh]
    · split at hrun
      · have hh : h = h2 := congrArg Prod.snd (Option.some.inj hrun)
        rw [← hh]
      · cases hlc : h.loadCell input.count_ptr with
        | none =>
          rw [hlc] at hrun
          exact Option.noConfusion hrun
        | some cv =>
          rw [hlc] at hrun
          exact matchStoreCell_frame hrun hc
  | groupBy input output gt gc at2 ac ao =>
    simp only [OperatorCall.run] at hrun
    simp only [OperatorCall.output] at hc hd
    unfold cuda_execute_group_by at hrun
    split at hrun
    · have hh : h = h2 := congrArg Prod.snd (Option.some.inj hrun)
      rw [← hh]
    · split at hrun
      · have hh : h = h2 := congrArg Prod.snd (Option.some.inj hrun)
        rw [← hh]
      · exact matchStoreCell_frame hrun hc

/-- C9 witness: the frame theorem applied at a concrete filter call; the
input count cell (address 1) is untouched by a filter writing the output
count cell (address 3). -/
theorem operator_frame_property_witness :
    Heap.lookup
        { blocks := [(0, Block.bytes [0, 0, 0, 0]), (1, Block.cell 5),
            (2, Block.bytes [0, 0, 0, 0]), (3, Block.cell 20)],
          next := 4 } 1 = testHeap.lookup 1 :=
  operator_frame_property
    (OperatorCall.filter testInput testOutput CudaComparisonOp.between
      CudaDataType.int32 (some 0) none) testCtx testHeap CudaError.success
    { blocks := [(0, Block.bytes [0, 0, 0, 0]), (1, Block.cell 5),
        (2, Block.bytes [0, 0, 0, 0]), (3, Block.cell 20)],
      next := 4 } (by decide) 1 (by decide) (by decide)
